import Mathlib

/-!
Verification development for the MXL GStreamer pacing layer and the MXL
scoped ring-access primitives (repository `dmf-mxl/mxl`, Rust sources under
`src/rust/`).  The Rust functions relevant to the pacing and access claims
are shallowly embedded as pure Lean functions over `Nat` (machine `u64`
values are natural numbers; casts and saturating operations are made
explicit), with external effects (the GStreamer clock, the store's C API,
the blocking read calls) supplied as oracle parameters.
-/

namespace MxlSpec

/-- Modulus of the 64-bit unsigned machine integers used throughout the
Rust sources (`u64`); a cast `x as u64` from `u128` is `x % U64_MOD`. -/
def U64_MOD : Nat := 18446744073709551616

/-- Error taxonomy of the store wrapper, from `mxl/src/error.rs`
(`enum Error`).  Library-loading and string-conversion variants are kept
as plain constructors; the payload of `unknown` is the raw status code. -/
inductive MxlError where
  | unknown (status : Int)
  | flowNotFound
  | outOfRangeTooLate
  | outOfRangeTooEarly
  | invalidFlowReader
  | invalidFlowWriter
  | timeout
  | invalidArg
  | conflict
  | other (msg : String)
deriving DecidableEq

/-- The only GStreamer flow error the embedded functions produce
(`gst::FlowError::Error`). -/
inductive GstFlowError where
  | error
deriving DecidableEq

/-- Rational rate (frames/sec or samples/sec) as in `mxl::Rational`. -/
structure Rational where
  numerator : Nat
  denominator : Nat
deriving DecidableEq

/-! ## Discrete writer pacing (`gst-mxl-rs/src/mxlsink/render_video.rs`) -/

/-- Mutable sink-side video state relevant to `render_video.rs`
(`mxlsink::state::VideoState`): the next grain index and the ring's
capacity in grains. -/
structure VideoSinkState where
  grain_index : Nat
  grain_count : Nat
deriving DecidableEq

/-- Target-index clamp of `render_video.rs::video` (lines 99-103):
`if index > current_index && index - current_index > grain_count
 { index = current_index + grain_count - 1 }`. -/
def clamp_target_index (current_index grain_count target : Nat) : Nat :=
  if target > current_index ∧ target - current_index > grain_count then
    current_index + grain_count - 1
  else
    target

/-- Embedding of `render_video.rs::video` (the per-buffer discrete write
step).  `pts` is `buffer.pts()`, `mxl_to_gst_offset` the stored
`InitialTime` offset, `ts_to_index` the domain clock's
`timestamp_to_index` conversion at the flow's grain rate.  The first
component is the index passed to `open_grain` inside `commit_buffer`
(`some i` means a grain write is opened and committed at index `i`;
`none` would mean the call performs no write, which never happens in the
source: `commit_buffer` is invoked unconditionally after the `match`). -/
def render_video (current_index : Nat) (pts : Option Nat) (mxl_to_gst_offset : Nat)
    (ts_to_index : Nat → Nat) (vs : VideoSinkState) : Option Nat × VideoSinkState :=
  match pts with
  | some p =>
    let mxl_pts := p + mxl_to_gst_offset
    let index := clamp_target_index current_index vs.grain_count (ts_to_index mxl_pts)
    (some index, { vs with grain_index := index + 1 })
  | none =>
    (some current_index, { vs with grain_index := current_index + 1 })

/-! ## Scoped grain write access (`mxl/src/grain/write_access.rs`) -/

/-- The `mxl_sys::GrainInfo` fields the wrapper touches. -/
structure GrainInfo where
  grainSize : Nat
  totalSlices : Nat
  validSlices : Nat
  flags : Nat
deriving DecidableEq

/-- Calls issued by the wrapper to the underlying store (the C API). -/
inductive StoreCall where
  | commitGrain (info : GrainInfo)
  | cancelGrain
  | commitSamples
  | cancelSamples
deriving DecidableEq

/-- RAII grain write session (`GrainWriteAccess`): the grain info and the
drop-protection flag.  The raw pointers and the C handles are irrelevant
to the control flow modelled here. -/
structure GrainWriteAccess where
  grain_info : GrainInfo
  committed_or_canceled : Bool
deriving DecidableEq

/-- `GrainWriteAccess::total_slices`. -/
def GrainWriteAccess.total_slices (a : GrainWriteAccess) : Nat :=
  a.grain_info.totalSlices

/-- Embedding of `GrainWriteAccess::commit(valid_slices)` (write_access.rs
lines 137-155).  `store_result` is the outcome of the store's
`flow_writer_commit_grain` call, should it be reached.  Returns the
method's result, the session value at the end of the call (the session is
consumed in Rust; its final field values drive `drop`), and the list of
store calls issued.  The source sets `committed_or_canceled = true`
before the slice check, then errors out without touching the store when
`valid_slices > totalSlices`; otherwise it sets `validSlices` and invokes
the store commit once. -/
def GrainWriteAccess.commit (a : GrainWriteAccess) (valid_slices : Nat)
    (store_result : Except MxlError Unit) :
    Except MxlError Unit × GrainWriteAccess × List StoreCall :=
  let a := { a with committed_or_canceled := true }
  if valid_slices > a.grain_info.totalSlices then
    (.error (.other "Valid slices cannot exceed total slices."), a, [])
  else
    let a := { a with grain_info := { a.grain_info with validSlices := valid_slices } }
    (store_result, a, [.commitGrain a.grain_info])

/-- Embedding of `GrainWriteAccess::cancel` (lines 186-190): marks the
session and invokes the store cancel once. -/
def GrainWriteAccess.cancel (a : GrainWriteAccess)
    (store_result : Except MxlError Unit) :
    Except MxlError Unit × GrainWriteAccess × List StoreCall :=
  (store_result, { a with committed_or_canceled := true }, [.cancelGrain])

/-- Embedding of `Drop for GrainWriteAccess` (lines 193-208): cancels via
the store exactly when the session was neither committed nor canceled. -/
def GrainWriteAccess.drop_calls (a : GrainWriteAccess) : List StoreCall :=
  if !a.committed_or_canceled then [.cancelGrain] else []

/-! ## Channel access (`mxl/src/samples/data.rs`, `samples/write_access.rs`) -/

/-- One fragment of `mxl_sys::WrappedBufferSlice`: a base pointer and a
byte size. -/
structure Fragment where
  pointer : Nat
  size : Nat
deriving DecidableEq

/-- The fields of `mxl_sys::WrappedMultiBufferSlice` used by the channel
accessors: the two fragments, the per-channel stride and the channel
count. -/
structure WrappedMultiBufferSlice where
  frag0 : Fragment
  frag1 : Fragment
  stride : Nat
  count : Nat
deriving DecidableEq

/-- Read-only view of multi-channel sample data (`SamplesData`).  Shared
memory is the oracle `mem` below. -/
structure SamplesData where
  buffer_slice : WrappedMultiBufferSlice
deriving DecidableEq

/-- RAII sample write session (`SamplesWriteAccess`). -/
structure SamplesWriteAccess where
  buffer_slice : WrappedMultiBufferSlice
  committed_or_canceled : Bool
deriving DecidableEq

/-- Bytes of shared memory at `[ptr, ptr + size)`, as a list
(the `std::slice::from_raw_parts(ptr, size)` view). -/
def read_region (mem : Nat → Nat) (ptr size : Nat) : List Nat :=
  (List.range size).map (fun i => mem (ptr + i))

/-- `SamplesData::num_of_channels`. -/
def SamplesData.num_of_channels (s : SamplesData) : Nat :=
  s.buffer_slice.count

/-- Embedding of `SamplesData::channel_data` (data.rs lines 91-107):
rejects `channel >= count` with `InvalidArg`, otherwise returns the two
per-channel fragments at `fragments[k].pointer + stride * channel` with
the fragments' byte sizes. -/
def SamplesData.channel_data (mem : Nat → Nat) (s : SamplesData) (channel : Nat) :
    Except MxlError (List Nat × List Nat) :=
  if channel ≥ s.buffer_slice.count then
    .error .invalidArg
  else
    .ok
      (read_region mem (s.buffer_slice.frag0.pointer + s.buffer_slice.stride * channel)
        s.buffer_slice.frag0.size,
       read_region mem (s.buffer_slice.frag1.pointer + s.buffer_slice.stride * channel)
        s.buffer_slice.frag1.size)

/-- Embedding of `SamplesWriteAccess::channel_data_mut` (write_access.rs
lines 159-175); the bound check and the region arithmetic are identical
to the read-side accessor (the returned slices are mutable in Rust, which
does not affect the regions handed out). -/
def SamplesWriteAccess.channel_data_mut (mem : Nat → Nat) (s : SamplesWriteAccess)
    (channel : Nat) : Except MxlError (List Nat × List Nat) :=
  if channel ≥ s.buffer_slice.count then
    .error .invalidArg
  else
    .ok
      (read_region mem (s.buffer_slice.frag0.pointer + s.buffer_slice.stride * channel)
        s.buffer_slice.frag0.size,
       read_region mem (s.buffer_slice.frag1.pointer + s.buffer_slice.stride * channel)
        s.buffer_slice.frag1.size)

/-! ## Continuous writer chunk loop (`gst-mxl-rs/src/mxlsink/render_audio.rs`) -/

/-- Chunk size choice of `compute_samples_per_channel` (render_audio.rs
line 174): `remaining.min(max_chunk)`. -/
def compute_chunk_samples (remaining max_chunk : Nat) : Nat :=
  min remaining max_chunk

/-- Embedding of the chunked write loop of `render_audio.rs::audio`
(lines 105-146).  The loop opens, fills and commits one chunk per
iteration; this model records the committed chunk sizes in order and
threads the `u64` write index through `wrapping_add` (modelled as
addition modulo `2^64`).  The Rust `while remaining > 0` loop terminates
only because each chunk is at least one sample whenever
`max_chunk > 0`; the structural `fuel` argument makes that explicit
(`none` means the fuel ran out before the loop finished, which cannot
happen for `fuel ≥ remaining` when `max_chunk > 0`). -/
def render_audio_write_loop : Nat → Nat → Nat → Nat → Option (List Nat × Nat)
  | _, _, write_index, 0 => some ([], write_index)
  | 0, _, _, _ + 1 => none
  | fuel + 1, max_chunk, write_index, r + 1 =>
    let chunk_samples := compute_chunk_samples (r + 1) max_chunk
    match render_audio_write_loop fuel max_chunk
        ((write_index + chunk_samples) % U64_MOD) (r + 1 - chunk_samples) with
    | some (chunks, final_index) => some (chunk_samples :: chunks, final_index)
    | none => none

/-! ## Source-side state (`gst-mxl-rs/src/mxlsrc/state.rs`) -/

/-- `mxlsrc::state::InitialTime`: the MXL index and the GStreamer running
time captured when the timing baseline was (re-)established. -/
structure InitialTime where
  mxl_index : Nat
  gst_time : Nat
deriving DecidableEq

/-- `mxlsrc::state::AudioState` (the reader handles are external and
omitted): batch counter, initialization flag, read index and the
pending-discontinuity flag. -/
structure AudioState where
  batch_counter : Nat
  is_initialized : Bool
  index : Nat
  next_discont : Bool
deriving DecidableEq

/-- `mxlsrc::state::VideoState` (reader handle omitted). -/
structure VideoState where
  grain_rate : Rational
  frame_counter : Nat
  is_initialized : Bool
deriving DecidableEq

/-- `mxl::GrainData` as used by `create_video`: payload bytes, declared
total size, validity flags. -/
structure GrainData where
  payload : List Nat
  total_size : Nat
  flags : Nat
deriving DecidableEq

/-- Outcome of one `create` cycle (`mxlsrc::imp::CreateState`); for the
audio path the produced buffer is summarized by its PTS and DISCONT flag. -/
inductive CreateState where
  | dataCreated (pts : Nat) (discont : Bool)
  | noDataCreated
deriving DecidableEq

/-- Outcome of one video `create` cycle; a video buffer carries a PTS
(no DISCONT flag is set on this path). -/
inductive VideoCreateState where
  | dataCreated (pts : Nat)
  | noDataCreated
deriving DecidableEq

/-! ## Continuous reader pacing (`gst-mxl-rs/src/mxlsrc/create_audio.rs`) -/

/-- Per-call external inputs of `create_audio`: the pipeline's current
running time, the producer's head index, the domain clock's current time
(`instance.get_time()`), the blocking `get_samples` call as a function of
the requested index (`.ok` abstracts the returned `SamplesData`), and the
`compute_batch_duration` result (a difference of two
`index_to_timestamp` conversions performed by the domain clock). -/
structure AudioEnv where
  ts_gst : Nat
  head : Nat
  instance_time : Nat
  get_samples : Nat → Except MxlError Unit
  batch_duration : Nat

/-- Embedding of `create_audio.rs::audio_state_init` (lines 177-198):
on the first call, capture the timeline offset and start one batch
behind the head (`head.saturating_sub(batch)`). -/
def audio_state_init (initial_info : InitialTime) (instance_time ts_gst batch head : Nat)
    (audio_state : AudioState) : InitialTime × AudioState :=
  if !audio_state.is_initialized then
    ({ mxl_index := instance_time, gst_time := ts_gst },
     { audio_state with index := head - batch, is_initialized := true, batch_counter := 0 })
  else
    (initial_info, audio_state)

/-- Embedding of `create_audio.rs::define_cushion` (lines 278-283):
`head.saturating_sub(batch.saturating_mul(2))`. -/
def define_cushion (head batch : Nat) : Nat :=
  let cushion := min (batch * 2) (U64_MOD - 1)
  head - cushion

/-- Embedding of `create_audio.rs::catch_up` (lines 269-276). -/
def catch_up (head batch : Nat) (audio_state : AudioState) : AudioState :=
  { audio_state with index := define_cushion head batch }

/-- Embedding of `create_audio.rs::is_reader_late` (lines 254-267):
`oldest_valid = head.saturating_sub(ring.saturating_sub(batch))`; when
the reader index is below it, jump it forward via `catch_up` and report
lateness.  (The `Result` wrapper of the source is always `Ok`.) -/
def is_reader_late (head batch ring : Nat) (audio_state : AudioState) :
    Bool × AudioState :=
  let oldest_valid := head - (ring - batch)
  if audio_state.index < oldest_valid then
    (true, catch_up head batch audio_state)
  else
    (false, audio_state)

/-- Embedding of `create_audio.rs::resync_state` (lines 203-213): reset
the timing baseline to the current moment, zero the batch counter and
flag the next buffer as discontinuous. -/
def resync_state (ts_gst : Nat) (initial_info : InitialTime) (instance_time : Nat)
    (audio_state : AudioState) : InitialTime × AudioState :=
  ({ gst_time := ts_gst, mxl_index := instance_time },
   { audio_state with batch_counter := 0, next_discont := true })

/-- Embedding of `create_audio.rs::compute_pts` (lines 285-305): PTS from
the batch counter times the nominal batch duration (the `u128 → u64` cast
truncates modulo `2^64`), shifted by the stored baseline; if that falls
before the pipeline's running time, advance the baseline by the
difference and emit the running time.  Returns the PTS and the updated
`InitialTime`. -/
def compute_pts (batch : Nat) (sample_rate : Rational) (batch_counter ts_gst : Nat)
    (initial_info : InitialTime) : Nat × InitialTime :=
  let batch_duration_ns := batch * 1000000000 * sample_rate.denominator / sample_rate.numerator
  let pts_ns := (batch_counter * batch_duration_ns) % U64_MOD
  let pts := initial_info.gst_time + pts_ns
  if pts < ts_gst then
    (ts_gst, { initial_info with gst_time := initial_info.gst_time + (ts_gst - pts) })
  else
    (pts, initial_info)

/-- Embedding of `create_audio.rs::create_audio` (lines 62-172).  The
batch size and ring length are the values the source computes from the
flow config (`batch = DEFAULT_BATCH_SIZE.min(bufferLength / 2).min(hint)`,
`ring = bufferLength`), passed in here.  `wait_for_sample` only re-polls
the head and leaves all pacing state unchanged, so it has no model.  On a
failed `get_samples` the call recovers as `noDataCreated`; on success the
MXL timeline reference advances by the batch duration
(`saturating_add`), the PTS is computed, the pending DISCONT flag is
taken (`std::mem::take`), and the counter and index advance. -/
def create_audio (ring batch : Nat) (sample_rate : Rational) (env : AudioEnv)
    (st : AudioState) (ii : InitialTime) :
    Except GstFlowError CreateState × AudioState × InitialTime :=
  let p := audio_state_init ii env.instance_time env.ts_gst batch env.head st
  let ii := p.1
  let st := p.2
  let q := is_reader_late env.head batch ring st
  let r := if q.1 then resync_state env.ts_gst ii env.instance_time q.2 else (ii, q.2)
  let ii := r.1
  let st := r.2
  match env.get_samples st.index with
  | .error _ => (.ok .noDataCreated, st, ii)
  | .ok _ =>
    let ii := { ii with mxl_index := min (ii.mxl_index + env.batch_duration) (U64_MOD - 1) }
    let c := compute_pts batch sample_rate st.batch_counter env.ts_gst ii
    let pts := c.1
    let ii := c.2
    let is_discont := st.next_discont
    let st := { st with next_discont := false }
    let st := { st with batch_counter := st.batch_counter + 1, index := st.index + batch }
    (.ok (.dataCreated pts is_discont), st, ii)

/-! ## Discrete reader pacing (`gst-mxl-rs/src/mxlsrc/create_video.rs`) -/

/-- MXL flag marking an invalid/dropped frame
(`create_video.rs` line 36). -/
def MXL_GRAIN_FLAG_INVALID : Nat := 1

/-- Per-call external inputs of `create_video`: the pipeline's running
time, the domain clock's current index at the grain rate, and the
blocking `get_complete_grain` call as a function of the requested index. -/
structure VideoEnv where
  ts_gst : Nat
  current_index : Nat
  get_complete_grain : Nat → Except MxlError GrainData

/-- Embedding of `create_video.rs::create_video` (lines 51-153).  On the
first call the baseline is captured; the next frame index is the baseline
index plus the frame counter, clamped up to the current index when the
reader lags (missed frames are skipped, not replayed); the PTS comes from
the frame counter and rate (the `u128 → u64` cast truncates modulo
`2^64`) shifted by the baseline, with the forward-only correction applied
before the read; a failing read recovers as `noDataCreated`; a grain with
the invalid flag is a hard `FlowError`; otherwise the buffer is produced
and the frame counter advances. -/
def create_video (env : VideoEnv) (st : VideoState) (ii : InitialTime) :
    Except GstFlowError VideoCreateState × VideoState × InitialTime :=
  let current_index := env.current_index
  let p :=
    if !st.is_initialized then
      (({ mxl_index := current_index, gst_time := env.ts_gst } : InitialTime),
       { st with is_initialized := true })
    else (ii, st)
  let ii := p.1
  let st := p.2
  let nfi0 := ii.mxl_index + st.frame_counter
  let next_frame_index := if nfi0 < current_index then current_index else nfi0
  let pts0 := (st.frame_counter * 1000000000 * st.grain_rate.denominator
      / st.grain_rate.numerator) % U64_MOD
  let pts1 := pts0 + ii.gst_time
  let c :=
    if pts1 < env.ts_gst then
      let gst2 := ii.gst_time + env.ts_gst - pts1
      (pts0 + gst2, { ii with gst_time := gst2 })
    else (pts1, ii)
  let pts := c.1
  let ii := c.2
  match env.get_complete_grain next_frame_index with
  | .error _ => (.ok .noDataCreated, st, ii)
  | .ok grain_data =>
    if grain_data.flags &&& MXL_GRAIN_FLAG_INVALID ≠ 0 then
      (.error .error, st, ii)
    else
      (.ok (.dataCreated pts), { st with frame_counter := st.frame_counter + 1 }, ii)

/-! ## Helper lemmas -/

theorem clamp_target_index_le (current_index grain_count target : Nat) :
    clamp_target_index current_index grain_count target ≤ current_index + grain_count := by
  unfold clamp_target_index
  split
  · omega
  · next h => omega

theorem clamp_target_index_of_gt (current_index grain_count target : Nat)
    (h : grain_count < target - current_index) :
    clamp_target_index current_index grain_count target =
      current_index + grain_count - 1 := by
  unfold clamp_target_index
  rw [if_pos]
  exact ⟨by omega, h⟩

/-! ## C2: discrete-writer clamp bound (corrected) -/

/-- C2 counterexample: with `current_index = 0`, `grain_count = 10` and a
timestamp mapping to target index exactly `grain_count` ahead, the clamp
guard `index - current_index > grain_count` does not fire and the grain
write is opened at index `10`, which exceeds
`current_index + grain_count - 1 = 9` — refuting the claim that the
index passed to `open_grain` is never more than `grain_count - 1` ahead
of the current index. -/
theorem discrete_clamp_boundary_counterexample :
    (render_video 0 (some 10) 0 (fun t => t) ⟨0, 10⟩).1 = some 10 ∧
      0 + 10 - 1 < 10 :=
  ⟨rfl, by decide⟩

/-- C2 (amended): for every buffer with a presentation timestamp, the
grain index passed to `open_grain` is never more than `grain_count`
(rather than `grain_count - 1`) ahead of the current ring index, and
whenever `target_index - current_index > grain_count` the index is
clamped to `current_index + grain_count - 1`. -/
theorem discrete_clamp_bound_amended (current_index p mxl_to_gst_offset : Nat)
    (ts_to_index : Nat → Nat) (vs : VideoSinkState) :
    (∀ i, (render_video current_index (some p) mxl_to_gst_offset ts_to_index vs).1 = some i →
        i ≤ current_index + vs.grain_count) ∧
    (vs.grain_count < ts_to_index (p + mxl_to_gst_offset) - current_index →
      (render_video current_index (some p) mxl_to_gst_offset ts_to_index vs).1 =
        some (current_index + vs.grain_count - 1)) := by
  constructor
  · intro i hi
    simp only [render_video, Option.some.injEq] at hi
    exact hi ▸ clamp_target_index_le current_index vs.grain_count
      (ts_to_index (p + mxl_to_gst_offset))
  · intro h
    simp only [render_video, Option.some.injEq]
    exact clamp_target_index_of_gt current_index vs.grain_count
      (ts_to_index (p + mxl_to_gst_offset)) h

/-- C2 witness: at `current_index = 0`, `grain_count = 10`, target `25`,
the amended theorem yields the clamped write at index `9`. -/
theorem discrete_clamp_bound_amended_witness :
    (render_video 0 (some 25) 0 (fun t => t) ⟨0, 10⟩).1 = some (0 + 10 - 1) :=
  (discrete_clamp_bound_amended 0 25 0 (fun t => t) ⟨0, 10⟩).2 (by decide)

/-! ## C8: forward-pacing skip when ahead (corrected) -/

/-- C8 counterexample: in the no-timestamp mode, with the writer's next
index `100` more than half the ring (`grain_count / 2 = 5`) ahead of the
current ring index `0`, the render call still opens and commits a grain
(at the current index) — it does not skip the write, refuting the claimed
no-op-success path. -/
theorem no_pts_skip_counterexample :
    (render_video 0 none 0 (fun _ => 0) ⟨100, 10⟩).1 = some 0 ∧
      10 / 2 < 100 - 0 :=
  ⟨rfl, by decide⟩

/-- C8 (amended): in the discrete writer's no-timestamp (live) mode the
render call always writes the grain at the current ring index and
advances the next index to `current_index + 1`, regardless of how far
ahead the writer's next index already is — no skip path exists. -/
theorem no_pts_mode_always_writes (current_index mxl_to_gst_offset : Nat)
    (ts_to_index : Nat → Nat) (vs : VideoSinkState) :
    render_video current_index none mxl_to_gst_offset ts_to_index vs =
      (some current_index, { vs with grain_index := current_index + 1 }) :=
  rfl

/-! ## C7: commit slice validation (confirmed) -/

/-- C7: `GrainWriteAccess::commit(valid_slices)` errors out whenever
`valid_slices > total_slices` and in that case never reaches the
store-level commit; for `valid_slices ≤ total_slices` it records
`validSlices = valid_slices` and invokes the store commit exactly once
(returning the store's result). -/
theorem commit_slice_validation (a : GrainWriteAccess) (valid_slices : Nat)
    (store_result : Except MxlError Unit) :
    (a.grain_info.totalSlices < valid_slices →
        (∃ msg, (a.commit valid_slices store_result).1 = .error (.other msg)) ∧
        (a.commit valid_slices store_result).2.2 = []) ∧
    (valid_slices ≤ a.grain_info.totalSlices →
        (a.commit valid_slices store_result).2.1.grain_info.validSlices = valid_slices ∧
        (a.commit valid_slices store_result).2.2 =
          [.commitGrain { a.grain_info with validSlices := valid_slices }] ∧
        (a.commit valid_slices store_result).1 = store_result) := by
  constructor
  · intro h
    simp only [GrainWriteAccess.commit]
    rw [if_pos h]
    exact ⟨⟨_, rfl⟩, rfl⟩
  · intro h
    simp only [GrainWriteAccess.commit]
    rw [if_neg (by omega)]
    exact ⟨rfl, rfl, rfl⟩

/-- C7 witness: a session with `totalSlices = 2`; `commit 3` errors with
no store call, `commit 2` records the slices and issues one store commit. -/
theorem commit_slice_validation_witness :
    ((∃ msg, ((⟨⟨16, 2, 0, 0⟩, false⟩ : GrainWriteAccess).commit 3 (.ok ())).1 =
          .error (.other msg)) ∧
      ((⟨⟨16, 2, 0, 0⟩, false⟩ : GrainWriteAccess).commit 3 (.ok ())).2.2 = []) ∧
    (((⟨⟨16, 2, 0, 0⟩, false⟩ : GrainWriteAccess).commit 2 (.ok ())).2.1.grain_info.validSlices
        = 2 ∧
      ((⟨⟨16, 2, 0, 0⟩, false⟩ : GrainWriteAccess).commit 2 (.ok ())).2.2 =
        [.commitGrain { (⟨16, 2, 0, 0⟩ : GrainInfo) with validSlices := 2 }] ∧
      ((⟨⟨16, 2, 0, 0⟩, false⟩ : GrainWriteAccess).commit 2 (.ok ())).1 = .ok ()) :=
  ⟨(commit_slice_validation ⟨⟨16, 2, 0, 0⟩, false⟩ 3 (.ok ())).1 (by decide),
   (commit_slice_validation ⟨⟨16, 2, 0, 0⟩, false⟩ 2 (.ok ())).2 (by decide)⟩

/-! ## C9: failed commit leaks the session (confirmed) -/

/-- C9: when `commit(valid_slices)` fails the `valid_slices >
total_slices` check, the session was already marked consumed before the
check, so neither the store commit nor any cancel is issued — the
subsequent `Drop` is a no-op too; in contrast, an abandoned session
cancels once on drop, and a within-bounds commit or an explicit cancel
issues exactly one store call with a silent drop afterwards. -/
theorem failed_commit_leaks_session (a : GrainWriteAccess) (valid_slices : Nat)
    (store_result : Except MxlError Unit)
    (h : a.grain_info.totalSlices < valid_slices) :
    ((a.commit valid_slices store_result).2.2 = [] ∧
      (a.commit valid_slices store_result).2.1.committed_or_canceled = true ∧
      GrainWriteAccess.drop_calls (a.commit valid_slices store_result).2.1 = []) ∧
    (∀ b : GrainWriteAccess, b.committed_or_canceled = false →
      GrainWriteAccess.drop_calls b = [.cancelGrain]) ∧
    (∀ (b : GrainWriteAccess) (w : Nat) (r : Except MxlError Unit),
      w ≤ b.grain_info.totalSlices →
      ((b.commit w r).2.2 ++
        GrainWriteAccess.drop_calls (b.commit w r).2.1).length = 1) ∧
    (∀ (b : GrainWriteAccess) (r : Except MxlError Unit),
      ((b.cancel r).2.2 ++
        GrainWriteAccess.drop_calls (b.cancel r).2.1).length = 1) := by
  refine ⟨?_, ?_, ?_, ?_⟩
  · simp only [GrainWriteAccess.commit]
    rw [if_pos h]
    exact ⟨rfl, rfl, rfl⟩
  · intro b hb
    simp [GrainWriteAccess.drop_calls, hb]
  · intro b w r hw
    simp only [GrainWriteAccess.commit]
    rw [if_neg (by omega)]
    simp [GrainWriteAccess.drop_calls]
  · intro b r
    simp [GrainWriteAccess.cancel, GrainWriteAccess.drop_calls]

/-- C9 witness: concrete failing commit (`totalSlices = 2`,
`valid_slices = 3`): no store call from `commit`, and `drop` stays
silent. -/
theorem failed_commit_leaks_session_witness :
    ((⟨⟨16, 2, 0, 0⟩, false⟩ : GrainWriteAccess).commit 3 (.ok ())).2.2 = [] ∧
      GrainWriteAccess.drop_calls
        ((⟨⟨16, 2, 0, 0⟩, false⟩ : GrainWriteAccess).commit 3 (.ok ())).2.1 = [] :=
  ⟨(failed_commit_leaks_session ⟨⟨16, 2, 0, 0⟩, false⟩ 3 (.ok ()) (by decide)).1.1,
   (failed_commit_leaks_session ⟨⟨16, 2, 0, 0⟩, false⟩ 3 (.ok ()) (by decide)).1.2.2⟩

/-! ## C10: channel access totality (confirmed) -/

/-- C10: `SamplesData::channel_data` and
`SamplesWriteAccess::channel_data_mut` return `Err(InvalidArg)` exactly
when the channel is at or beyond the channel count, and for every
in-range channel return `Ok` with the two per-channel fragments; both are
total functions of the channel argument. -/
theorem channel_access_total (mem : Nat → Nat) (sd : SamplesData)
    (sw : SamplesWriteAccess) (channel : Nat) :
    (SamplesData.channel_data mem sd channel = .error .invalidArg ↔
      sd.buffer_slice.count ≤ channel) ∧
    (channel < sd.buffer_slice.count →
      SamplesData.channel_data mem sd channel =
        .ok (read_region mem
              (sd.buffer_slice.frag0.pointer + sd.buffer_slice.stride * channel)
              sd.buffer_slice.frag0.size,
             read_region mem
              (sd.buffer_slice.frag1.pointer + sd.buffer_slice.stride * channel)
              sd.buffer_slice.frag1.size)) ∧
    (SamplesWriteAccess.channel_data_mut mem sw channel = .error .invalidArg ↔
      sw.buffer_slice.count ≤ channel) ∧
    (channel < sw.buffer_slice.count →
      SamplesWriteAccess.channel_data_mut mem sw channel =
        .ok (read_region mem
              (sw.buffer_slice.frag0.pointer + sw.buffer_slice.stride * channel)
              sw.buffer_slice.frag0.size,
             read_region mem
              (sw.buffer_slice.frag1.pointer + sw.buffer_slice.stride * channel)
              sw.buffer_slice.frag1.size)) := by
  refine ⟨?_, ?_, ?_, ?_⟩
  · unfold SamplesData.channel_data
    split
    · next h => simp [h]
    · next h => simp; omega
  · intro h
    unfold SamplesData.channel_data
    rw [if_neg (by omega)]
  · unfold SamplesWriteAccess.channel_data_mut
    split
    · next h => simp [h]
    · next h => simp; omega
  · intro h
    unfold SamplesWriteAccess.channel_data_mut
    rw [if_neg (by omega)]

/-- C10 witness: a two-channel slice; channel `1` is in range and returns
its two fragments, channel `2` is rejected with `InvalidArg`. -/
theorem channel_access_total_witness :
    SamplesData.channel_data (fun i => i) ⟨⟨⟨100, 2⟩, ⟨200, 1⟩, 8, 2⟩⟩ 1 =
        .ok (read_region (fun i => i) (100 + 8 * 1) 2,
             read_region (fun i => i) (200 + 8 * 1) 1) ∧
      (SamplesData.channel_data (fun i => i) ⟨⟨⟨100, 2⟩, ⟨200, 1⟩, 8, 2⟩⟩ 2 =
          .error .invalidArg ↔ 2 ≤ 2) :=
  ⟨(channel_access_total (fun i => i) ⟨⟨⟨100, 2⟩, ⟨200, 1⟩, 8, 2⟩⟩
      ⟨⟨⟨100, 2⟩, ⟨200, 1⟩, 8, 2⟩, false⟩ 1).2.1 (by decide),
   (channel_access_total (fun i => i) ⟨⟨⟨100, 2⟩, ⟨200, 1⟩, 8, 2⟩⟩
      ⟨⟨⟨100, 2⟩, ⟨200, 1⟩, 8, 2⟩, false⟩ 2).1⟩

/-! ## C3: continuous-writer chunking (confirmed) -/

theorem render_audio_write_loop_spec (max_chunk : Nat) (hm : 0 < max_chunk) :
    ∀ fuel remaining write_index, remaining ≤ fuel → write_index < U64_MOD →
      ∃ chunks, render_audio_write_loop fuel max_chunk write_index remaining =
          some (chunks, (write_index + remaining) % U64_MOD) ∧
        chunks.length = (remaining + max_chunk - 1) / max_chunk ∧
        (∀ c ∈ chunks, c ≤ max_chunk) ∧
        chunks.sum = remaining := by
  intro fuel
  induction fuel with
  | zero =>
    intro remaining write_index hr hw
    have h0 : remaining = 0 := by omega
    subst h0
    refine ⟨[], ?_, ?_, ?_, rfl⟩
    · simp [render_audio_write_loop, Nat.mod_eq_of_lt hw]
    · simp [Nat.div_eq_of_lt (show max_chunk - 1 < max_chunk by omega)]
    · simp
  | succ fuel ih =>
    intro remaining write_index hr hw
    match remaining with
    | 0 =>
      refine ⟨[], ?_, ?_, ?_, rfl⟩
      · simp [render_audio_write_loop, Nat.mod_eq_of_lt hw]
      · simp [Nat.div_eq_of_lt (show max_chunk - 1 < max_chunk by omega)]
      · simp
    | r + 1 =>
      have hchunk : compute_chunk_samples (r + 1) max_chunk = min (r + 1) max_chunk := rfl
      set chunk := min (r + 1) max_chunk with hc
      have hch1 : 1 ≤ chunk := by omega
      have hchle : chunk ≤ max_chunk := by omega
      have hrem : r + 1 - chunk ≤ fuel := by omega
      have hw2 : (write_index + chunk) % U64_MOD < U64_MOD := by
        have : 0 < U64_MOD := by simp [U64_MOD]
        exact Nat.mod_lt _ this
      obtain ⟨chunks, heq, hlen, hall, hsum⟩ :=
        ih (r + 1 - chunk) ((write_index + chunk) % U64_MOD) hrem hw2
      refine ⟨chunk :: chunks, ?_, ?_, ?_, ?_⟩
      · show render_audio_write_loop (fuel + 1) max_chunk write_index (r + 1) = _
        rw [render_audio_write_loop, hchunk, heq]
        have hmod : ((write_index + chunk) % U64_MOD + (r + 1 - chunk)) % U64_MOD =
            (write_index + (r + 1)) % U64_MOD := by
          rw [Nat.mod_add_mod]
          congr 1
          omega
        rw [hmod]
      · show chunks.length + 1 = (r + 1 + max_chunk - 1) / max_chunk
        rw [hlen]
        rcases le_or_lt (r + 1) max_chunk with hle | hgt
        · have hz : r + 1 - chunk = 0 := by omega
          have e1 : (r + 1 - chunk + max_chunk - 1) / max_chunk = 0 := by
            rw [hz]
            exact Nat.div_eq_of_lt (by omega)
          have e2 : r + 1 + max_chunk - 1 = r + max_chunk := by omega
          rw [e1, e2, Nat.add_div_right r hm,
            Nat.div_eq_of_lt (show r < max_chunk by omega)]
        · have e1 : r + 1 - chunk + max_chunk - 1 = r := by omega
          have e2 : r + 1 + max_chunk - 1 = r + max_chunk := by omega
          rw [e1, e2, Nat.add_div_right r hm]
      · intro c hcmem
        rcases List.mem_cons.mp hcmem with h | h
        · omega
        · exact hall c h
      · show chunk + chunks.sum = r + 1
        rw [hsum]
        omega

/-- C3: the continuous writer splits a buffer of `n` samples per channel
into `ceil(n / (buffer_length / 2))` chunks, each of at most
`buffer_length / 2` samples, committed in order, and on completion
`next_write_index` has advanced by exactly `n`. -/
theorem continuous_writer_chunking (buffer_length write_index n : Nat)
    (hL : 2 ≤ buffer_length) (hov : write_index + n < U64_MOD) :
    ∃ chunks, render_audio_write_loop n (buffer_length / 2) write_index n =
        some (chunks, write_index + n) ∧
      chunks.length = (n + buffer_length / 2 - 1) / (buffer_length / 2) ∧
      (∀ c ∈ chunks, c ≤ buffer_length / 2) ∧
      chunks.sum = n := by
  have hm : 0 < buffer_length / 2 := by omega
  obtain ⟨chunks, heq, hlen, hall, hsum⟩ :=
    render_audio_write_loop_spec (buffer_length / 2) hm n n write_index le_rfl (by omega)
  exact ⟨chunks, by rw [heq, Nat.mod_eq_of_lt hov], hlen, hall, hsum⟩

/-! ## Reader-step helper lemmas -/

theorem define_cushion_eq (head batch : Nat) (hh : head < U64_MOD) :
    define_cushion head batch = head - 2 * batch := by
  simp only [define_cushion, U64_MOD] at hh ⊢
  omega

theorem is_reader_late_true (head batch ring : Nat) (st : AudioState)
    (hh : head < U64_MOD) (hlate : st.index < head - (ring - batch)) :
    is_reader_late head batch ring st = (true, { st with index := head - 2 * batch }) := by
  simp only [is_reader_late, catch_up]
  rw [if_pos hlate, define_cushion_eq head batch hh]

theorem is_reader_late_false (head batch ring : Nat) (st : AudioState)
    (h : ¬ st.index < head - (ring - batch)) :
    is_reader_late head batch ring st = (false, st) := by
  simp only [is_reader_late]
  rw [if_neg h]

/-- Full evaluation of `create_audio` on an already-initialized state
that trips the lateness check: the step resyncs and then either recovers
as no-data (read failure) or emits a discontinuous buffer timestamped at
the just-reset baseline. -/
theorem create_audio_late_eq (ring batch : Nat) (sample_rate : Rational)
    (env : AudioEnv) (st : AudioState) (ii : InitialTime)
    (hinit : st.is_initialized = true) (hh : env.head < U64_MOD)
    (hlate : st.index < env.head - (ring - batch)) :
    create_audio ring batch sample_rate env st ii =
      (match env.get_samples (env.head - 2 * batch) with
       | .error _ =>
         (.ok .noDataCreated,
          { st with index := env.head - 2 * batch, batch_counter := 0, next_discont := true },
          ⟨env.instance_time, env.ts_gst⟩)
       | .ok _ =>
         (.ok (.dataCreated env.ts_gst true),
          { st with index := env.head - 2 * batch + batch, batch_counter := 1, next_discont := false },
          ⟨min (env.instance_time + env.batch_duration) (U64_MOD - 1), env.ts_gst⟩)) := by
  simp only [create_audio, audio_state_init, hinit, Bool.not_true, Bool.false_eq_true,
    if_false, is_reader_late_true env.head batch ring st hh hlate, resync_state, if_true]
  cases hg : env.get_samples (env.head - 2 * batch) with
  | error e => rfl
  | ok u => simp [compute_pts]

/-- Full evaluation of `create_audio` on an already-initialized state
that passes the lateness check and reads successfully. -/
theorem create_audio_ok_eq (ring batch : Nat) (sample_rate : Rational)
    (env : AudioEnv) (st : AudioState) (ii : InitialTime)
    (hinit : st.is_initialized = true)
    (hnl : ¬ st.index < env.head - (ring - batch))
    (hok : env.get_samples st.index = .ok ()) :
    create_audio ring batch sample_rate env st ii =
      (.ok (.dataCreated
          (compute_pts batch sample_rate st.batch_counter env.ts_gst
            ⟨min (ii.mxl_index + env.batch_duration) (U64_MOD - 1), ii.gst_time⟩).1
          st.next_discont),
       { st with next_discont := false, batch_counter := st.batch_counter + 1, index := st.index + batch },
       (compute_pts batch sample_rate st.batch_counter env.ts_gst
         ⟨min (ii.mxl_index + env.batch_duration) (U64_MOD - 1), ii.gst_time⟩).2) := by
  simp only [create_audio, audio_state_init, hinit, Bool.not_true, Bool.false_eq_true,
    if_false, is_reader_late_false env.head batch ring st hnl, Bool.false_eq_true]
  rw [hok]

/-! ## C1: continuous-reader catch-up (confirmed) -/

/-- C1: whenever the initialized continuous reader's index is below
`head - (ring - batch)` (saturating) with `batch ≤ ring / 2`, the pacing
step jumps the index to `head - 2 * batch` (saturating), which lies
within `[head - ring, head]`, resets the timing baseline (`gst_time` to
the current running time, `mxl_index` to the domain clock, batch counter
to zero) and sets the next-discontinuity flag; the flag survives failed
reads, the next successfully produced buffer is marked discontinuous and
clears the flag, and a subsequent successful non-late cycle produces a
non-discontinuous buffer. -/
theorem continuous_reader_catch_up (ring batch : Nat) (sample_rate : Rational)
    (env : AudioEnv) (st : AudioState) (ii : InitialTime)
    (hb : batch ≤ ring / 2) (hh : env.head < U64_MOD)
    (hinit : st.is_initialized = true)
    (hlate : st.index < env.head - (ring - batch)) :
    is_reader_late env.head batch ring st =
        (true, { st with index := env.head - 2 * batch }) ∧
    (env.head - ring ≤ env.head - 2 * batch ∧ env.head - 2 * batch ≤ env.head) ∧
    resync_state env.ts_gst ii env.instance_time
        { st with index := env.head - 2 * batch } =
      (⟨env.instance_time, env.ts_gst⟩,
       { st with index := env.head - 2 * batch, batch_counter := 0, next_discont := true }) ∧
    (∀ e, env.get_samples (env.head - 2 * batch) = .error e →
      create_audio ring batch sample_rate env st ii =
        (.ok .noDataCreated,
         { st with index := env.head - 2 * batch, batch_counter := 0, next_discont := true },
         ⟨env.instance_time, env.ts_gst⟩)) ∧
    (env.get_samples (env.head - 2 * batch) = .ok () →
      create_audio ring batch sample_rate env st ii =
        (.ok (.dataCreated env.ts_gst true),
         { st with index := env.head - 2 * batch + batch, batch_counter := 1, next_discont := false },
         ⟨min (env.instance_time + env.batch_duration) (U64_MOD - 1), env.ts_gst⟩)) ∧
    (∀ (env2 : AudioEnv) (st2 : AudioState) (ii2 : InitialTime),
      st2.is_initialized = true → st2.next_discont = false →
      ¬ st2.index < env2.head - (ring - batch) →
      env2.get_samples st2.index = .ok () →
      ∃ pts, (create_audio ring batch sample_rate env2 st2 ii2).1 =
        .ok (.dataCreated pts false)) := by
  refine ⟨is_reader_late_true env.head batch ring st hh hlate, ⟨by omega, by omega⟩,
    rfl, ?_, ?_, ?_⟩
  · intro e he
    rw [create_audio_late_eq ring batch sample_rate env st ii hinit hh hlate, he]
  · intro he
    rw [create_audio_late_eq ring batch sample_rate env st ii hinit hh hlate, he]
  · intro env2 st2 ii2 hinit2 hd2 hnl2 hok2
    rw [create_audio_ok_eq ring batch sample_rate env2 st2 ii2 hinit2 hnl2 hok2]
    exact ⟨_, by rw [hd2]⟩

/-- C1 witness: `ring = 100`, `batch = 10`, `head = 1000`, reader index
`0` is outside the retained window; the cycle resyncs and emits a
discontinuous buffer at the current running time `77`. -/
theorem continuous_reader_catch_up_witness :
    create_audio 100 10 ⟨48000, 1⟩ ⟨77, 1000, 5, fun _ => .ok (), 3⟩
        ⟨6, true, 0, false⟩ ⟨2, 4⟩ =
      (.ok (.dataCreated 77 true),
       { (⟨6, true, 0, false⟩ : AudioState) with index := 1000 - 2 * 10 + 10, batch_counter := 1, next_discont := false },
       ⟨min (5 + 3) (U64_MOD - 1), 77⟩) :=
  (continuous_reader_catch_up 100 10 ⟨48000, 1⟩ ⟨77, 1000, 5, fun _ => .ok (), 3⟩
      ⟨6, true, 0, false⟩ ⟨2, 4⟩ (by decide) (by decide) rfl (by decide)).2.2.2.2.1 rfl

/-! ## C4 helper lemmas -/

/-- Closed form of `compute_pts`: the emitted PTS is the maximum of the
counter-derived timestamp and the current running time, and the stored
baseline becomes the maximum of the old baseline and the forward
correction. -/
theorem compute_pts_spec (batch : Nat) (sample_rate : Rational)
    (batch_counter ts_gst : Nat) (ii : InitialTime) :
    compute_pts batch sample_rate batch_counter ts_gst ii =
      (max (ii.gst_time +
          batch_counter * (batch * 1000000000 * sample_rate.denominator /
            sample_rate.numerator) % U64_MOD) ts_gst,
       ⟨ii.mxl_index,
        max ii.gst_time (ts_gst -
          batch_counter * (batch * 1000000000 * sample_rate.denominator /
            sample_rate.numerator) % U64_MOD)⟩) := by
  obtain ⟨m, gt⟩ := ii
  simp only [compute_pts]
  set bn := batch_counter * (batch * 1000000000 * sample_rate.denominator /
    sample_rate.numerator) % U64_MOD with hbn
  by_cases h : gt + bn < ts_gst
  · rw [if_pos h]
    simp only [Prod.mk.injEq, InitialTime.mk.injEq, true_and, and_true]
    omega
  · rw [if_neg h]
    simp only [Prod.mk.injEq, InitialTime.mk.injEq, true_and, and_true]
    omega

/-- Closed form of a successful `create_video` cycle on an initialized
state reading a valid grain: the emitted PTS is the maximum of the
counter-derived timestamp and the running time, the frame counter
advances, and the baseline receives the forward-only correction. -/
theorem create_video_ok_eq (env : VideoEnv) (st : VideoState) (ii : InitialTime)
    (g : GrainData) (hinit : st.is_initialized = true)
    (hread : ∀ i, env.get_complete_grain i = .ok g)
    (hflag : g.flags &&& MXL_GRAIN_FLAG_INVALID = 0) :
    create_video env st ii =
      (.ok (.dataCreated (max (st.frame_counter * 1000000000 * st.grain_rate.denominator
          / st.grain_rate.numerator % U64_MOD + ii.gst_time) env.ts_gst)),
       { st with frame_counter := st.frame_counter + 1 },
       ⟨ii.mxl_index,
        max ii.gst_time (env.ts_gst -
          st.frame_counter * 1000000000 * st.grain_rate.denominator
            / st.grain_rate.numerator % U64_MOD)⟩) := by
  obtain ⟨m, gt⟩ := ii
  simp only [create_video, hinit, Bool.not_true, Bool.false_eq_true, if_false]
  rw [hread]
  dsimp only
  rw [if_neg (fun h => h hflag)]
  set b := st.frame_counter * 1000000000 * st.grain_rate.denominator
    / st.grain_rate.numerator % U64_MOD with hb
  by_cases h : b + gt < env.ts_gst
  · rw [if_pos h]
    dsimp only
    simp only [Prod.mk.injEq, Except.ok.injEq, VideoCreateState.dataCreated.injEq,
      InitialTime.mk.injEq, true_and, and_true]
    omega
  · rw [if_neg h]
    dsimp only
    simp only [Prod.mk.injEq, Except.ok.injEq, VideoCreateState.dataCreated.injEq,
      InitialTime.mk.injEq, true_and, and_true]
    omega

/-- Video-path PTS monotonicity across two consecutive successful
cycles with a non-decreasing external clock (helper for the amended C4). -/
theorem video_pts_monotone (env1 env2 : VideoEnv) (st : VideoState) (ii : InitialTime)
    (g1 g2 : GrainData) (p1 p2 : Nat)
    (hinit : st.is_initialized = true)
    (hr1 : ∀ i, env1.get_complete_grain i = .ok g1)
    (hf1 : g1.flags &&& MXL_GRAIN_FLAG_INVALID = 0)
    (hr2 : ∀ i, env2.get_complete_grain i = .ok g2)
    (hf2 : g2.flags &&& MXL_GRAIN_FLAG_INVALID = 0)
    (hts : env1.ts_gst ≤ env2.ts_gst)
    (hov : (st.frame_counter + 1) * 1000000000 * st.grain_rate.denominator
        / st.grain_rate.numerator < U64_MOD)
    (h1 : (create_video env1 st ii).1 = .ok (.dataCreated p1))
    (h2 : (create_video env2 (create_video env1 st ii).2.1
        (create_video env1 st ii).2.2).1 = .ok (.dataCreated p2)) :
    p1 ≤ p2 := by
  rw [create_video_ok_eq env1 st ii g1 hinit hr1 hf1] at h1 h2
  dsimp only at h1 h2
  rw [create_video_ok_eq env2 { st with frame_counter := st.frame_counter + 1 }
      ⟨ii.mxl_index,
       max ii.gst_time (env1.ts_gst -
         st.frame_counter * 1000000000 * st.grain_rate.denominator
           / st.grain_rate.numerator % U64_MOD)⟩ g2 hinit hr2 hf2] at h2
  dsimp only at h2
  simp only [Except.ok.injEq, VideoCreateState.dataCreated.injEq] at h1 h2
  subst h1
  subst h2
  have hle : st.frame_counter * 1000000000 * st.grain_rate.denominator
      / st.grain_rate.numerator ≤
      (st.frame_counter + 1) * 1000000000 * st.grain_rate.denominator
        / st.grain_rate.numerator :=
    Nat.div_le_div_right
      (mul_le_mul_right' (mul_le_mul_right' (Nat.le_succ st.frame_counter) 1000000000)
        st.grain_rate.denominator)
  rw [Nat.mod_eq_of_lt (lt_of_le_of_lt hle hov), Nat.mod_eq_of_lt hov]
  set x := st.frame_counter * 1000000000 * st.grain_rate.denominator
    / st.grain_rate.numerator with hx
  set y := (st.frame_counter + 1) * 1000000000 * st.grain_rate.denominator
    / st.grain_rate.numerator with hy
  omega

/-- Audio-path PTS monotonicity across two consecutive successful,
non-late cycles with a non-decreasing external clock (helper for the
amended C4). -/
theorem audio_pts_monotone (ring batch : Nat) (sample_rate : Rational)
    (env1 env2 : AudioEnv) (st st1 st2 : AudioState) (ii ii1 ii2 : InitialTime)
    (p1 p2 : Nat) (d1 d2 : Bool)
    (hinit : st.is_initialized = true)
    (hnl1 : ¬ st.index < env1.head - (ring - batch))
    (hok1 : env1.get_samples st.index = .ok ())
    (hnl2 : ¬ st.index + batch < env2.head - (ring - batch))
    (hok2 : env2.get_samples (st.index + batch) = .ok ())
    (hts : env1.ts_gst ≤ env2.ts_gst)
    (hov : (st.batch_counter + 1) *
        (batch * 1000000000 * sample_rate.denominator / sample_rate.numerator) < U64_MOD)
    (h1 : create_audio ring batch sample_rate env1 st ii = (.ok (.dataCreated p1 d1), st1, ii1))
    (h2 : create_audio ring batch sample_rate env2 st1 ii1 = (.ok (.dataCreated p2 d2), st2, ii2)) :
    p1 ≤ p2 := by
  rw [create_audio_ok_eq ring batch sample_rate env1 st ii hinit hnl1 hok1,
    compute_pts_spec] at h1
  dsimp only at h1
  simp only [Prod.mk.injEq, Except.ok.injEq, CreateState.dataCreated.injEq] at h1
  obtain ⟨⟨hp1, hd1⟩, hst1, hii1⟩ := h1
  subst hst1
  subst hii1
  rw [create_audio_ok_eq ring batch sample_rate env2
      { st with next_discont := false, batch_counter := st.batch_counter + 1, index := st.index + batch }
      ⟨min (ii.mxl_index + env1.batch_duration) (U64_MOD - 1),
       max ii.gst_time (env1.ts_gst -
         st.batch_counter * (batch * 1000000000 * sample_rate.denominator /
           sample_rate.numerator) % U64_MOD)⟩
      hinit hnl2 hok2, compute_pts_spec] at h2
  dsimp only at h2
  simp only [Prod.mk.injEq, Except.ok.injEq, CreateState.dataCreated.injEq] at h2
  obtain ⟨⟨hp2, hd2⟩, hst2, hii2⟩ := h2
  subst hp1
  subst hp2
  have hle : st.batch_counter *
      (batch * 1000000000 * sample_rate.denominator / sample_rate.numerator) ≤
      (st.batch_counter + 1) *
        (batch * 1000000000 * sample_rate.denominator / sample_rate.numerator) :=
    mul_le_mul_right' (Nat.le_succ st.batch_counter) _
  rw [Nat.mod_eq_of_lt (lt_of_le_of_lt hle hov), Nat.mod_eq_of_lt hov]
  set x := st.batch_counter *
    (batch * 1000000000 * sample_rate.denominator / sample_rate.numerator) with hx
  set y := (st.batch_counter + 1) *
    (batch * 1000000000 * sample_rate.denominator / sample_rate.numerator) with hy
  omega

/-! ## C4: forward-only timestamp correction (corrected) -/

/-- C4 counterexample: a two-call continuous-reader trace with a
non-decreasing external clock (`0` then `1`) in which the first cycle
emits PTS `50000000000` and the second cycle — after a catch-up resync
resets the batch counter and baseline — emits PTS `1 < 50000000000`:
emitted output timestamps DO go backward across a resync, refuting the
unconditional never-goes-backward consequence. -/
theorem pts_regression_after_resync_counterexample :
    create_audio 100 10 ⟨1, 1⟩ ⟨0, 55, 0, fun _ => .ok (), 10⟩
        ⟨5, true, 50, false⟩ ⟨0, 0⟩ =
      (.ok (.dataCreated 50000000000 false), ⟨6, true, 60, false⟩, ⟨10, 0⟩) ∧
    create_audio 100 10 ⟨1, 1⟩ ⟨1, 1000, 0, fun _ => .ok (), 10⟩
        ⟨6, true, 60, false⟩ ⟨10, 0⟩ =
      (.ok (.dataCreated 1 true), ⟨1, true, 990, false⟩, ⟨10, 1⟩) ∧
    (0 : Nat) ≤ 1 ∧ (1 : Nat) < 50000000000 :=
  ⟨rfl, rfl, by decide, by decide⟩

/-- C4 (amended): the emitted PTS equals the counter-derived timestamp
shifted by the baseline, forward-corrected to the current running time,
and the baseline offset never decreases within a cycle; consequently,
across consecutive successful calls with a non-decreasing external
clock, emitted timestamps never go backward on the video path, and on
the audio path provided no catch-up resync occurs in either call (a
resync resets the batch counter and baseline and may emit an earlier
timestamp, as the counterexample shows). -/
theorem forward_only_pts_correction_amended :
    (∀ (batch : Nat) (sample_rate : Rational) (batch_counter ts_gst : Nat)
        (ii : InitialTime),
      (compute_pts batch sample_rate batch_counter ts_gst ii).1 =
        max (ii.gst_time +
          (batch_counter * (batch * 1000000000 * sample_rate.denominator /
            sample_rate.numerator)) % U64_MOD) ts_gst ∧
      ii.gst_time ≤ (compute_pts batch sample_rate batch_counter ts_gst ii).2.gst_time) ∧
    (∀ (env1 env2 : VideoEnv) (st : VideoState) (ii : InitialTime)
        (g1 g2 : GrainData) (p1 p2 : Nat),
      st.is_initialized = true →
      (∀ i, env1.get_complete_grain i = .ok g1) →
      g1.flags &&& MXL_GRAIN_FLAG_INVALID = 0 →
      (∀ i, env2.get_complete_grain i = .ok g2) →
      g2.flags &&& MXL_GRAIN_FLAG_INVALID = 0 →
      env1.ts_gst ≤ env2.ts_gst →
      (st.frame_counter + 1) * 1000000000 * st.grain_rate.denominator
          / st.grain_rate.numerator < U64_MOD →
      (create_video env1 st ii).1 = .ok (.dataCreated p1) →
      (create_video env2 (create_video env1 st ii).2.1
          (create_video env1 st ii).2.2).1 = .ok (.dataCreated p2) →
      p1 ≤ p2) ∧
    (∀ (ring batch : Nat) (sample_rate : Rational) (env1 env2 : AudioEnv)
        (st st1 st2 : AudioState) (ii ii1 ii2 : InitialTime) (p1 p2 : Nat) (d1 d2 : Bool),
      st.is_initialized = true →
      ¬ st.index < env1.head - (ring - batch) →
      env1.get_samples st.index = .ok () →
      ¬ st.index + batch < env2.head - (ring - batch) →
      env2.get_samples (st.index + batch) = .ok () →
      env1.ts_gst ≤ env2.ts_gst →
      (st.batch_counter + 1) *
          (batch * 1000000000 * sample_rate.denominator / sample_rate.numerator) < U64_MOD →
      create_audio ring batch sample_rate env1 st ii = (.ok (.dataCreated p1 d1), st1, ii1) →
      create_audio ring batch sample_rate env2 st1 ii1 = (.ok (.dataCreated p2 d2), st2, ii2) →
      p1 ≤ p2) := by
  refine ⟨?_, ?_, ?_⟩
  · intro batch sample_rate batch_counter ts_gst ii
    rw [compute_pts_spec]
    exact ⟨rfl, by dsimp only; omega⟩
  · intro env1 env2 st ii g1 g2 p1 p2 hinit hr1 hf1 hr2 hf2 hts hov h1 h2
    exact video_pts_monotone env1 env2 st ii g1 g2 p1 p2 hinit hr1 hf1 hr2 hf2 hts hov h1 h2
  · intro ring batch sample_rate env1 env2 st st1 st2 ii ii1 ii2 p1 p2 d1 d2
      hinit hnl1 hok1 hnl2 hok2 hts hov h1 h2
    exact audio_pts_monotone ring batch sample_rate env1 env2 st st1 st2 ii ii1 ii2
      p1 p2 d1 d2 hinit hnl1 hok1 hnl2 hok2 hts hov h1 h2

/-- C4 witness: a concrete two-call resync-free audio trace (counters
`5` then `6`, running times `0` then `3`) in which the amended theorem
yields the non-decreasing PTS pair `50000000000 ≤ 60000000000`. -/
theorem forward_only_pts_correction_amended_witness :
    (50000000000 : Nat) ≤ 60000000000 :=
  forward_only_pts_correction_amended.2.2 100 10 ⟨1, 1⟩
    ⟨0, 110, 0, fun _ => .ok (), 10⟩ ⟨3, 130, 0, fun _ => .ok (), 10⟩
    ⟨5, true, 100, false⟩ ⟨6, true, 110, false⟩ ⟨7, true, 120, false⟩
    ⟨0, 0⟩ ⟨10, 0⟩ ⟨20, 0⟩ 50000000000 60000000000 false false
    rfl (by decide) rfl (by decide) rfl (by decide) (by decide) rfl rfl

/-! ## C5: reader-path error propagation (corrected) -/

/-- C5 counterexample: the discrete reader path converts a store-level
`InvalidArg` failure of `get_complete_grain` into the recoverable
no-data outcome instead of surfacing it as an error — the `Err(_)` match
arm in `create_video` (and likewise in `create_audio`) recovers every
error, not only `Timeout` and `NotFound`. -/
theorem reader_error_swallowed_counterexample :
    (create_video ⟨5, 0, fun _ => .error .invalidArg⟩ ⟨⟨1, 1⟩, 0, true⟩ ⟨0, 0⟩).1 =
        .ok .noDataCreated ∧
      (.ok .noDataCreated : Except GstFlowError VideoCreateState) ≠ .error .error :=
  ⟨rfl, fun h => Except.noConfusion h⟩

/-- C5 (amended): every error returned by the blocking read call
(`get_complete_grain` on the discrete path, `get_samples` on the
continuous path) — not only `Timeout` and `NotFound` — is converted into
the recoverable no-data outcome; no store-level error from those calls is
surfaced to the caller. -/
theorem reader_errors_all_recovered (e : MxlError)
    (venv : VideoEnv) (vst : VideoState) (vii : InitialTime)
    (ring batch : Nat) (sample_rate : Rational)
    (aenv : AudioEnv) (ast : AudioState) (aii : InitialTime)
    (hv : ∀ i, venv.get_complete_grain i = .error e)
    (ha : ∀ i, aenv.get_samples i = .error e) :
    (create_video venv vst vii).1 = .ok .noDataCreated ∧
    (create_audio ring batch sample_rate aenv ast aii).1 = .ok .noDataCreated := by
  constructor
  · simp only [create_video]
    rw [hv]
  · simp only [create_audio]
    rw [ha]

/-- C5 witness: with the store reporting `Conflict` on both paths, both
cycles return the no-data outcome. -/
theorem reader_errors_all_recovered_witness :
    (create_video ⟨9, 4, fun _ => .error .conflict⟩ ⟨⟨30, 1⟩, 2, true⟩ ⟨1, 3⟩).1 =
        .ok .noDataCreated ∧
      (create_audio 100 10 ⟨48000, 1⟩ ⟨9, 50, 5, fun _ => .error .conflict, 3⟩
          ⟨2, true, 40, false⟩ ⟨1, 3⟩).1 = .ok .noDataCreated :=
  reader_errors_all_recovered .conflict ⟨9, 4, fun _ => .error .conflict⟩ ⟨⟨30, 1⟩, 2, true⟩
    ⟨1, 3⟩ 100 10 ⟨48000, 1⟩ ⟨9, 50, 5, fun _ => .error .conflict, 3⟩ ⟨2, true, 40, false⟩
    ⟨1, 3⟩ (fun _ => rfl) (fun _ => rfl)

/-! ## C6: invalid grain is a hard error (confirmed) -/

/-- C6: a successfully read grain whose flags have the invalid bit set
makes the discrete create step return a hard error — no buffer is
produced and the frame counter does not advance. -/
theorem invalid_grain_hard_error (env : VideoEnv) (st : VideoState) (ii : InitialTime)
    (g : GrainData) (hread : ∀ i, env.get_complete_grain i = .ok g)
    (hflag : g.flags &&& MXL_GRAIN_FLAG_INVALID ≠ 0) :
    (create_video env st ii).1 = .error .error ∧
      (create_video env st ii).2.1.frame_counter = st.frame_counter := by
  constructor
  · simp only [create_video]
    rw [hread]
    dsimp only
    rw [if_pos hflag]
  · simp only [create_video]
    rw [hread]
    dsimp only
    rw [if_pos hflag]
    split <;> rfl

/-- C6 witness: a grain with `flags = 1` read at frame counter `7` yields
the hard error and leaves the counter at `7`. -/
theorem invalid_grain_hard_error_witness :
    (create_video ⟨0, 0, fun _ => .ok ⟨[], 0, 1⟩⟩ ⟨⟨25, 1⟩, 7, true⟩ ⟨0, 0⟩).1 =
        .error .error ∧
      (create_video ⟨0, 0, fun _ => .ok ⟨[], 0, 1⟩⟩ ⟨⟨25, 1⟩, 7, true⟩ ⟨0, 0⟩).2.1.frame_counter
        = 7 :=
  invalid_grain_hard_error ⟨0, 0, fun _ => .ok ⟨[], 0, 1⟩⟩ ⟨⟨25, 1⟩, 7, true⟩ ⟨0, 0⟩
    ⟨[], 0, 1⟩ (fun _ => rfl) (by decide)

/-- C3 witness: `buffer_length = 1000`, a single 2400-sample write from
index `0` commits exactly `5` chunks, each of at most `500` samples, and
advances the write index by exactly `2400`. -/
theorem continuous_writer_chunking_witness :
    ∃ chunks, render_audio_write_loop 2400 (1000 / 2) 0 2400 =
        some (chunks, 0 + 2400) ∧
      chunks.length = (2400 + 1000 / 2 - 1) / (1000 / 2) ∧
      (∀ c ∈ chunks, c ≤ 1000 / 2) ∧
      chunks.sum = 2400 :=
  continuous_writer_chunking 1000 0 2400 (by decide) (by decide)

end MxlSpec
